import Mathlib

/-!
Verification of the TravelSafe route-planning and incident-avoidance engine.

The definitions below are a shallow embedding of the routing service
(`routingService.ts`, polygon + point barrier variant): travel-mode
resolution and caching, severity-sized circular exclusion zones, barrier
building, route-request assembly, and provider-response normalization.
JavaScript numbers are modelled as `ℝ` where trigonometry is involved and
as `ℚ` for the attribute-extraction and formatting pipeline; possibly
absent / non-numeric attributes are modelled as `Option`.
-/

namespace TravelSafe

/-- Source `LatLng` record of the routing service. -/
structure LatLng where
  latitude : ℝ
  longitude : ℝ

/-- Source `TravelProfile`: the closed set of abstract travel modes. -/
inductive TravelProfile where
  | car
  | bicycle
  | pedestrian
deriving DecidableEq

/-- Source `RoutePlanRequest`: start, end, profile, and incident types to avoid. -/
structure RoutePlanRequest where
  start : LatLng
  end_ : LatLng
  mode : TravelProfile
  avoidTypes : List String

/-- Source `MarkerData` (from `eventsService`): an incident as consumed by routing. -/
structure MarkerData where
  id : ℤ
  type : String
  severity : ℤ
  lat : ℝ
  lng : ℝ

/-- A provider travel-mode catalog entry.  The source inspects both a
`name` and a `travelModeName` field on the (untyped) catalog entries, so
both are modelled; `travelModeName` may be absent. -/
structure TravelMode where
  name : String
  travelModeName : Option String
deriving DecidableEq

/-- Source `travelModeNames`: ordered candidate provider-mode names per profile. -/
def travelModeNames : TravelProfile → List String
  | .car => ["Driving Time", "Driving Distance"]
  | .bicycle => ["Cycling Time", "Bicycle Time", "Driving Distance"]
  | .pedestrian => ["Walking Time", "Walking Distance"]

/-- The match predicate used by `resolveTravelMode`:
`mode.name === candidate || mode.travelModeName === candidate`. -/
def modeMatches (candidate : String) (mode : TravelMode) : Bool :=
  mode.name == candidate || mode.travelModeName == some candidate

/-- The candidate loop of `resolveTravelMode`: try each candidate name in
order with `modes.find`; after the loop, `modes.length ? modes[0] : null`. -/
def resolveTravelModeAux (modes : List TravelMode) : List String → Option TravelMode
  | [] => modes.head?
  | candidate :: rest =>
    match modes.find? (modeMatches candidate) with
    | some found => some found
    | none => resolveTravelModeAux modes rest

/-- Source `resolveTravelMode(profile, modes)` from the source. -/
def resolveTravelMode (profile : TravelProfile) (modes : List TravelMode) :
    Option TravelMode :=
  resolveTravelModeAux modes (travelModeNames profile)

/-- The module-level mutable state of the routing service: the cached
travel-mode catalog (`supportedTravelModes`), initially `[]`. -/
structure RoutingState where
  supportedTravelModes : List TravelMode
deriving DecidableEq

/-- The state at process start: empty cache. -/
def initialRoutingState : RoutingState := ⟨[]⟩

/-- One call of `ensureTravelModes`, parametrized by what the network fetch
would return (`info.supportedTravelModes || []`).  Returns the catalog
handed back to the caller, the state after the call, and whether a network
fetch occurred.  The source returns the cache immediately when
`supportedTravelModes.length` is truthy, otherwise fetches and stores. -/
def ensureTravelModes (fetchResult : List TravelMode) (s : RoutingState) :
    List TravelMode × RoutingState × Bool :=
  if s.supportedTravelModes.length ≠ 0 then
    (s.supportedTravelModes, s, false)
  else
    (fetchResult, ⟨fetchResult⟩, true)

/-- Number of network fetches performed by a sequence of
`ensureTravelModes` calls (one entry of `fetches` per call: the catalog the
provider would return on that call), starting from state `s`. -/
def fetchCount : List (List TravelMode) → RoutingState → ℕ
  | [], _ => 0
  | f :: fs, s =>
    let r := ensureTravelModes f s
    (if r.2.2 then 1 else 0) + fetchCount fs r.2.1

/-- Source `numPoints` of `createCirclePolygon`: the circle is approximated with
32 vertices. -/
def numPoints : ℕ := 32

/-- Source `latRadians = centerLat * Math.PI / 180`. -/
noncomputable def latRadians (centerLat : ℝ) : ℝ := centerLat * Real.pi / 180

/-- Source `metersPerDegreeLat = 111320`. -/
def metersPerDegreeLat : ℝ := 111320

/-- Source `metersPerDegreeLon = 111320 * Math.cos(latRadians)`. -/
noncomputable def metersPerDegreeLon (centerLat : ℝ) : ℝ :=
  111320 * Real.cos (latRadians centerLat)

/-- Source `radiusDegreesLat = radiusMeters / metersPerDegreeLat`. -/
noncomputable def radiusDegreesLat (radiusMeters : ℝ) : ℝ :=
  radiusMeters / metersPerDegreeLat

/-- Source `radiusDegreesLon = radiusMeters / metersPerDegreeLon`. -/
noncomputable def radiusDegreesLon (centerLat radiusMeters : ℝ) : ℝ :=
  radiusMeters / metersPerDegreeLon centerLat

/-- Source `angle = (i * 2 * Math.PI) / numPoints`. -/
noncomputable def circleAngle (i : ℕ) : ℝ :=
  ((i : ℝ) * 2 * Real.pi) / (numPoints : ℝ)

/-- The `i`-th ring vertex pushed by `createCirclePolygon`, as an
`(lon, lat)` pair (the source pushes `[lon, lat]`). -/
noncomputable def circleVertex (centerLat centerLon radiusMeters : ℝ) (i : ℕ) :
    ℝ × ℝ :=
  (centerLon + radiusDegreesLon centerLat radiusMeters * Real.cos (circleAngle i),
   centerLat + radiusDegreesLat radiusMeters * Real.sin (circleAngle i))

/-- Source `createCirclePolygon(centerLat, centerLon, radiusMeters)`: the single
closed ring of the returned polygon, vertices for `i = 0 .. numPoints`
inclusive. -/
noncomputable def createCirclePolygon (centerLat centerLon radiusMeters : ℝ) :
    List (ℝ × ℝ) :=
  (List.range (numPoints + 1)).map (circleVertex centerLat centerLon radiusMeters)

/-- Source `getBarrierRadiusForSeverity(severity) = 100 + (severity - 1) * 50`. -/
def getBarrierRadiusForSeverity (severity : ℤ) : ℤ :=
  100 + (severity - 1) * 50

/-- Source `incidentsToAvoid`: `[]` when `plan.avoidTypes` is empty, otherwise the
incidents whose `type` is included in `plan.avoidTypes`. -/
def incidentsToAvoid (plan : RoutePlanRequest) (incidents : List MarkerData) :
    List MarkerData :=
  if plan.avoidTypes.length = 0 then []
  else incidents.filter (fun incident => plan.avoidTypes.contains incident.type)

/-- A polygon barrier graphic: ring geometry plus the attributes set by the
source (`Name`, `BarrierType`). -/
structure PolygonBarrier where
  ring : List (ℝ × ℝ)
  Name : String
  BarrierType : ℤ

/-- A point barrier graphic: point geometry plus the attributes set by the
source (`Name`, `BarrierType`, `Attr_Minutes`, `Attr_TravelTime`). -/
structure PointBarrier where
  latitude : ℝ
  longitude : ℝ
  Name : String
  BarrierType : ℤ
  Attr_Minutes : ℤ
  Attr_TravelTime : ℤ

/-- The polygon barrier built for one avoided incident: a circle of
severity-dependent radius around the incident, `BarrierType = 0`. -/
noncomputable def polygonBarrierFor (incident : MarkerData) : PolygonBarrier :=
  { ring := createCirclePolygon incident.lat incident.lng
      ((getBarrierRadiusForSeverity incident.severity : ℤ) : ℝ)
    Name := incident.type ++ "_" ++ toString incident.id
    BarrierType := 0 }

/-- Source `polygonBarriers = incidentsToAvoid.map(...)`. -/
noncomputable def buildPolygonBarriers (plan : RoutePlanRequest)
    (incidents : List MarkerData) : List PolygonBarrier :=
  (incidentsToAvoid plan incidents).map polygonBarrierFor

/-- The point barrier built for one avoided incident: the incident's
location with extreme synthetic cost attributes. -/
def pointBarrierFor (incident : MarkerData) : PointBarrier :=
  { latitude := incident.lat
    longitude := incident.lng
    Name := incident.type
    BarrierType := 0
    Attr_Minutes := 999999
    Attr_TravelTime := 999999 }

/-- Source `pointBarriers = incidentsToAvoid.map(...)`. -/
def buildPointBarriers (plan : RoutePlanRequest) (incidents : List MarkerData) :
    List PointBarrier :=
  (incidentsToAvoid plan incidents).map pointBarrierFor

/-- One stop graphic of the request: point geometry plus its `Name`. -/
structure Stop where
  latitude : ℝ
  longitude : ℝ
  Name : String

/-- The stops feature set: start first, destination second. -/
def buildStops (plan : RoutePlanRequest) : List Stop :=
  [{ latitude := plan.start.latitude, longitude := plan.start.longitude,
     Name := "Start" },
   { latitude := plan.end_.latitude, longitude := plan.end_.longitude,
     Name := "Destination" }]

/-- The `RouteParameters` object submitted to the provider. -/
structure RouteParameters where
  stops : List Stop
  returnRoutes : Bool
  returnDirections : Bool
  outputLines : String
  outSpatialReferenceWkid : ℤ
  findBestSequence : Bool
  preserveFirstStop : Bool
  preserveLastStop : Bool
  travelMode : Option TravelMode
  polygonBarriers : Option (List PolygonBarrier)
  pointBarriers : Option (List PointBarrier)

/-- Assembly of the provider request inside `calculateRoute`: two ordered
stops, fixed routing options, the resolved travel mode when present, and
each barrier feature set attached only when non-empty. -/
noncomputable def buildRouteParameters (plan : RoutePlanRequest)
    (incidents : List MarkerData) (travelMode : Option TravelMode)
    (spatialReference : Option ℤ) : RouteParameters :=
  let polygonBarriers := buildPolygonBarriers plan incidents
  let pointBarriers := buildPointBarriers plan incidents
  { stops := buildStops plan
    returnRoutes := true
    returnDirections := false
    outputLines := "true-shape"
    outSpatialReferenceWkid := spatialReference.getD 4326
    findBestSequence := false
    preserveFirstStop := true
    preserveLastStop := true
    travelMode := travelMode
    polygonBarriers :=
      if polygonBarriers.length > 0 then some polygonBarriers else none
    pointBarriers :=
      if pointBarriers.length > 0 then some pointBarriers else none }

/-- The numeric attributes of a returned route; each may be absent or
non-numeric (`none`). -/
structure RouteAttrs where
  Total_Kilometers : Option ℚ
  Total_Miles : Option ℚ
  Total_TravelTime : Option ℚ
  Total_Time : Option ℚ

/-- A returned polyline: its paths and the `wkid` of its spatial reference
(absent when the geometry carries no spatial reference). -/
structure Polyline where
  paths : List (List (ℝ × ℝ))
  wkid : Option ℤ

/-- One entry of the provider's `routeResults` list. -/
structure RouteEntry where
  geometry : Polyline
  attributes : RouteAttrs

/-- The `RouteResult` returned by `calculateRoute`. -/
structure RouteResult where
  geometry : Polyline
  geometryWgs84 : Polyline
  distanceText : String
  timeText : String

/-- Source `distanceKm`: `Total_Kilometers` when numeric, else
`Total_Miles * 1.60934` when numeric, else undefined. -/
def distanceKmOf (attrs : RouteAttrs) : Option ℚ :=
  match attrs.Total_Kilometers with
  | some k => some k
  | none =>
    match attrs.Total_Miles with
    | some m => some (m * 1.60934)
    | none => none

/-- Source `timeMinutes`: `Total_TravelTime` when numeric, else `Total_Time` when
numeric, else undefined. -/
def timeMinutesOf (attrs : RouteAttrs) : Option ℚ :=
  match attrs.Total_TravelTime with
  | some t => some t
  | none =>
    match attrs.Total_Time with
    | some t => some t
    | none => none

/-- Two-digit zero-padded rendering of a value below 100. -/
def pad2 (n : ℕ) : String :=
  if n < 10 then "0" ++ toString n else toString n

/-- JavaScript `Math.round`: round half toward positive infinity. -/
def jsRound (q : ℚ) : ℤ := ⌊q + 1 / 2⌋

/-- Source `toFixed(2)` for a non-negative value: round the hundredths (ties up)
and render with exactly two digits after the decimal point. -/
def toFixed2Nonneg (q : ℚ) : String :=
  let n : ℤ := ⌊q * 100 + 1 / 2⌋
  toString (n / 100) ++ "." ++ pad2 (n % 100).toNat

/-- JavaScript `Number.prototype.toFixed(2)` on an exact value: ties round
away from zero. -/
def toFixed2 (q : ℚ) : String :=
  if q < 0 then "-" ++ toFixed2Nonneg (-q) else toFixed2Nonneg q

/-- The `distanceText` field of the result. -/
def distanceTextOf (attrs : RouteAttrs) : String :=
  match distanceKmOf attrs with
  | some d => toFixed2 d ++ " km"
  | none => "distance unavailable"

/-- The `timeText` field of the result. -/
def timeTextOf (attrs : RouteAttrs) : String :=
  match timeMinutesOf attrs with
  | some t => toString (jsRound t) ++ " min"
  | none => "time unavailable"

/-- A string showing exactly two decimal places: everything after the
final `.` is a two-character digit block. -/
def hasTwoDecimalPlaces (s : String) : Prop :=
  ∃ a b : String, s = a ++ "." ++ b ∧ b.length = 2 ∧
    ∀ c ∈ b.toList, c.isDigit = true

/-- The response-processing tail of `calculateRoute`: fail when
`routeResults` is empty, otherwise normalize the first route.
`reproject` stands for `webMercatorUtils.webMercatorToGeographic`, which
may yield no result. -/
def processRouteResults (reproject : Polyline → Option Polyline) :
    List RouteEntry → Except String RouteResult
  | [] => Except.error "No route returned from routing service"
  | entry :: _ =>
    let geometry := entry.geometry
    let geometryWgs84 :=
      if geometry.wkid = some 4326 then geometry
      else (reproject geometry).getD geometry
    Except.ok
      { geometry := geometry
        geometryWgs84 := geometryWgs84
        distanceText := distanceTextOf entry.attributes
        timeText := timeTextOf entry.attributes }

/-- The end-to-end scenario plan (car from (44.43, 26.10) to
(44.45, 26.12), avoiding "accident" incidents). -/
def scenarioPlan : RoutePlanRequest :=
  { start := { latitude := 44.43, longitude := 26.10 }
    end_ := { latitude := 44.45, longitude := 26.12 }
    mode := TravelProfile.car
    avoidTypes := ["accident"] }

/-- The severity-5 "accident" incident of the end-to-end scenario. -/
def scenarioIncident : MarkerData :=
  { id := 1, type := "accident", severity := 5, lat := 44.44, lng := 26.11 }

/-- Attribute record with only `Total_Miles = 10` populated. -/
def milesOnlyAttrs : RouteAttrs :=
  { Total_Kilometers := none
    Total_Miles := some 10
    Total_TravelTime := none
    Total_Time := none }

/-- Attribute record with no usable numeric attributes. -/
def absentAttrs : RouteAttrs :=
  { Total_Kilometers := none
    Total_Miles := none
    Total_TravelTime := none
    Total_Time := none }

/-- Attribute record with only `Total_Kilometers = 3` populated. -/
def kmOnlyAttrs : RouteAttrs :=
  { Total_Kilometers := some 3
    Total_Miles := none
    Total_TravelTime := none
    Total_Time := none }

/-- Attribute record with only `Total_TravelTime = 5/2` populated. -/
def travelTimeOnlyAttrs : RouteAttrs :=
  { Total_Kilometers := none
    Total_Miles := none
    Total_TravelTime := some (5 / 2)
    Total_Time := none }

/-- Attribute record with only `Total_Time = 5/2` populated. -/
def timeOnlyAttrs : RouteAttrs :=
  { Total_Kilometers := none
    Total_Miles := none
    Total_TravelTime := none
    Total_Time := some (5 / 2) }

/-- Claim C7: `getBarrierRadiusForSeverity` equals `100 + (severity - 1) * 50`,
giving exactly 100, 150, 200, 250, 300 meters for severities 1..5, and the
mapping is monotonically non-decreasing over severities 1..5. -/
theorem getBarrierRadiusForSeverity_values_monotone :
    (getBarrierRadiusForSeverity 1 = 100 ∧ getBarrierRadiusForSeverity 2 = 150 ∧
     getBarrierRadiusForSeverity 3 = 200 ∧ getBarrierRadiusForSeverity 4 = 250 ∧
     getBarrierRadiusForSeverity 5 = 300) ∧
    (∀ severity : ℤ, getBarrierRadiusForSeverity severity =
      100 + (severity - 1) * 50) ∧
    ∀ s t : ℤ, 1 ≤ s → s ≤ t → t ≤ 5 →
      getBarrierRadiusForSeverity s ≤ getBarrierRadiusForSeverity t := by
  refine ⟨by decide, fun _ => rfl, ?_⟩
  intro s t _ hst _
  simp only [getBarrierRadiusForSeverity]
  omega

/-- Witness for C7: the monotonicity part applied at severities 2 ≤ 3. -/
theorem getBarrierRadiusForSeverity_values_monotone_witness :
    (1 : ℤ) ≤ 2 ∧ (2 : ℤ) ≤ 3 ∧ (3 : ℤ) ≤ 5 ∧
    getBarrierRadiusForSeverity 2 ≤ getBarrierRadiusForSeverity 3 :=
  ⟨by decide, by decide, by decide,
   getBarrierRadiusForSeverity_values_monotone.2.2 2 3 (by decide) (by decide)
     (by decide)⟩

/-- Claim C6: an empty `routeResults` list makes route planning fail with
the no-route error; in that case no `RouteResult` at all (in particular
none with empty path geometry) is returned. -/
theorem processRouteResults_empty_fails (reproject : Polyline → Option Polyline) :
    processRouteResults reproject [] =
      Except.error "No route returned from routing service" ∧
    (processRouteResults reproject []).isOk = false :=
  ⟨rfl, rfl⟩

/-- Claim C5: the assembled request has exactly two stops, start first and
destination second, with `findBestSequence = false` and
`preserveFirstStop = preserveLastStop = true`. -/
theorem buildRouteParameters_stops_fixed (plan : RoutePlanRequest)
    (incidents : List MarkerData) (travelMode : Option TravelMode)
    (spatialReference : Option ℤ) :
    (buildRouteParameters plan incidents travelMode spatialReference).stops =
      [{ latitude := plan.start.latitude, longitude := plan.start.longitude,
         Name := "Start" },
       { latitude := plan.end_.latitude, longitude := plan.end_.longitude,
         Name := "Destination" }] ∧
    (buildRouteParameters plan incidents travelMode spatialReference).stops.length
      = 2 ∧
    (buildRouteParameters plan incidents travelMode spatialReference).findBestSequence
      = false ∧
    (buildRouteParameters plan incidents travelMode spatialReference).preserveFirstStop
      = true ∧
    (buildRouteParameters plan incidents travelMode spatialReference).preserveLastStop
      = true :=
  ⟨rfl, rfl, rfl, rfl, rfl⟩

/-- Claim C9: the incidents selected for barriers are exactly those whose
type is in `avoidTypes`: the selection equals the manually filtered
reference list, an empty `avoidTypes` yields empty barrier sets, and
membership in the selection is equivalent to membership in the input with
an avoided type. -/
theorem incidentsToAvoid_spec (plan : RoutePlanRequest)
    (incidents : List MarkerData) :
    incidentsToAvoid plan incidents =
      incidents.filter (fun incident => plan.avoidTypes.contains incident.type) ∧
    (plan.avoidTypes = [] →
      incidentsToAvoid plan incidents = [] ∧
      buildPolygonBarriers plan incidents = [] ∧
      buildPointBarriers plan incidents = []) ∧
    ∀ incident, incident ∈ incidentsToAvoid plan incidents ↔
      incident ∈ incidents ∧ incident.type ∈ plan.avoidTypes := by
  have hfilter : incidentsToAvoid plan incidents =
      incidents.filter (fun incident => plan.avoidTypes.contains incident.type) := by
    unfold incidentsToAvoid
    by_cases h : plan.avoidTypes.length = 0
    · have hnil : plan.avoidTypes = [] := List.length_eq_zero.mp h
      simp [h, hnil, List.contains]
    · simp [h]
  refine ⟨hfilter, ?_, ?_⟩
  · intro hnil
    have h0 : incidentsToAvoid plan incidents = [] := by
      simp [incidentsToAvoid, hnil]
    exact ⟨h0, by simp [buildPolygonBarriers, h0], by simp [buildPointBarriers, h0]⟩
  · intro incident
    rw [hfilter]
    simp [List.mem_filter, List.contains, List.elem_iff]

/-- Witness for C9: the empty-`avoidTypes` part applied to a concrete plan
and a one-incident list. -/
theorem incidentsToAvoid_spec_witness :
    incidentsToAvoid
        { start := { latitude := 0, longitude := 0 },
          end_ := { latitude := 0, longitude := 0 },
          mode := TravelProfile.car, avoidTypes := [] }
        [{ id := 1, type := "accident", severity := 3, lat := 0, lng := 0 }] = [] ∧
    buildPolygonBarriers
        { start := { latitude := 0, longitude := 0 },
          end_ := { latitude := 0, longitude := 0 },
          mode := TravelProfile.car, avoidTypes := [] }
        [{ id := 1, type := "accident", severity := 3, lat := 0, lng := 0 }] = [] ∧
    buildPointBarriers
        { start := { latitude := 0, longitude := 0 },
          end_ := { latitude := 0, longitude := 0 },
          mode := TravelProfile.car, avoidTypes := [] }
        [{ id := 1, type := "accident", severity := 3, lat := 0, lng := 0 }] = [] :=
  (incidentsToAvoid_spec _ _).2.1 rfl

/-- If no candidate name finds a match, the candidate loop falls through to
`modes.length ? modes[0] : null`. -/
theorem resolveTravelModeAux_eq_head (modes : List TravelMode) (cs : List String)
    (h : ∀ c ∈ cs, modes.find? (modeMatches c) = none) :
    resolveTravelModeAux modes cs = modes.head? := by
  induction cs with
  | nil => rfl
  | cons c rest ih =>
    have hc := h c (List.mem_cons_self c rest)
    simp only [resolveTravelModeAux, hc]
    exact ih fun c' hc' => h c' (List.mem_cons_of_mem c hc')

/-- The candidate loop returns the find-result of the first candidate that
matches some catalog entry. -/
theorem resolveTravelModeAux_found (modes : List TravelMode) (pre : List String)
    (c : String) (post : List String)
    (hpre : ∀ c' ∈ pre, modes.find? (modeMatches c') = none)
    (hc : modes.find? (modeMatches c) ≠ none) :
    resolveTravelModeAux modes (pre ++ c :: post) = modes.find? (modeMatches c) := by
  induction pre with
  | nil =>
    obtain ⟨m, hm⟩ := Option.ne_none_iff_exists'.mp hc
    simp only [List.nil_append, resolveTravelModeAux, hm]
  | cons c' rest ih =>
    have h1 := hpre c' (List.mem_cons_self c' rest)
    simp only [List.cons_append, resolveTravelModeAux, h1]
    exact ih fun x hx => hpre x (List.mem_cons_of_mem c' hx)

/-- Counterexample to claim C3 as stated: in this two-entry catalog no
candidate name of the car profile matches any entry's `name`, the catalog
is non-empty, and yet `resolveTravelMode` does not return the catalog's
first entry — it returns the second entry, whose `travelModeName` field
matches the candidate "Driving Time". -/
theorem resolveTravelMode_name_only_counterexample :
    (∀ c ∈ travelModeNames TravelProfile.car,
      ∀ m ∈ [TravelMode.mk "A" none, TravelMode.mk "C" (some "Driving Time")],
        m.name ≠ c) ∧
    ([TravelMode.mk "A" none, TravelMode.mk "C" (some "Driving Time")] :
      List TravelMode) ≠ [] ∧
    resolveTravelMode TravelProfile.car
        [TravelMode.mk "A" none, TravelMode.mk "C" (some "Driving Time")] =
      some (TravelMode.mk "C" (some "Driving Time")) ∧
    ([TravelMode.mk "A" none, TravelMode.mk "C" (some "Driving Time")] :
        List TravelMode).head? = some (TravelMode.mk "A" none) := by
  refine ⟨by decide, by decide, by decide, by decide⟩

/-- Claim C3 (amended: a candidate matches a catalog entry through the
entry's `name` or its `travelModeName`): `resolveTravelMode` returns the
entry found for the profile's first candidate, in priority-list order,
that matches some catalog entry; if no candidate matches and the catalog
is non-empty it returns the catalog's first entry; if the catalog is empty
it returns null. -/
theorem resolveTravelMode_spec (profile : TravelProfile)
    (modes : List TravelMode) :
    (modes = [] → resolveTravelMode profile modes = none) ∧
    ((∀ c ∈ travelModeNames profile, modes.find? (modeMatches c) = none) →
      resolveTravelMode profile modes = modes.head?) ∧
    ∀ pre c post, travelModeNames profile = pre ++ c :: post →
      (∀ c' ∈ pre, modes.find? (modeMatches c') = none) →
      modes.find? (modeMatches c) ≠ none →
      resolveTravelMode profile modes = modes.find? (modeMatches c) := by
  refine ⟨?_, ?_, ?_⟩
  · intro h
    subst h
    exact resolveTravelModeAux_eq_head [] _ (by simp [List.find?])
  · intro h
    exact resolveTravelModeAux_eq_head modes _ h
  · intro pre c post heq hpre hc
    unfold resolveTravelMode
    rw [heq]
    exact resolveTravelModeAux_found modes pre c post hpre hc

/-- Witness for the amended C3: all three branches applied at concrete
catalogs — empty catalog, a catalog with no matching entry, and a catalog
matched by the car profile's first candidate. -/
theorem resolveTravelMode_spec_witness :
    resolveTravelMode TravelProfile.car ([] : List TravelMode) = none ∧
    resolveTravelMode TravelProfile.car [TravelMode.mk "A" none] =
      ([TravelMode.mk "A" none] : List TravelMode).head? ∧
    resolveTravelMode TravelProfile.car [TravelMode.mk "Driving Time" none] =
      [TravelMode.mk "Driving Time" none].find? (modeMatches "Driving Time") :=
  ⟨(resolveTravelMode_spec TravelProfile.car []).1 rfl,
   (resolveTravelMode_spec TravelProfile.car [TravelMode.mk "A" none]).2.1
     (by decide),
   (resolveTravelMode_spec TravelProfile.car
       [TravelMode.mk "Driving Time" none]).2.2
     [] "Driving Time" ["Driving Distance"] rfl (by simp) (by decide)⟩

/-- Counterexample to claim C4 as stated: when the provider's catalog is
empty, nothing usable is cached, so each of two consecutive calls performs
a network fetch — two fetches in one process lifetime. -/
theorem ensureTravelModes_refetch_counterexample :
    fetchCount [[], []] initialRoutingState = 2 := by decide

/-- Once the cache is non-empty, no later call fetches. -/
theorem fetchCount_of_cached (fs : List (List TravelMode)) (s : RoutingState)
    (h : s.supportedTravelModes ≠ []) : fetchCount fs s = 0 := by
  induction fs with
  | nil => rfl
  | cons f fs ih =>
    have hlen : s.supportedTravelModes.length ≠ 0 := by
      simpa [List.length_eq_zero] using h
    simpa [fetchCount, ensureTravelModes, hlen] using ih

/-- Claim C4 (amended: provided every fetch returns a non-empty catalog —
an empty fetched catalog is not treated as cached and is refetched on the
next call): the supported-travel-mode catalog is fetched at most once per
process lifetime; after the first call caches a non-empty catalog, every
later call reuses it without refetching. -/
theorem ensureTravelModes_fetch_at_most_once (fetches : List (List TravelMode))
    (h : ∀ f ∈ fetches, f ≠ []) :
    fetchCount fetches initialRoutingState ≤ 1 := by
  cases fetches with
  | nil => decide
  | cons f fs =>
    have hf : f ≠ [] := h f (List.mem_cons_self f fs)
    have hstep : fetchCount (f :: fs) initialRoutingState =
        1 + fetchCount fs ⟨f⟩ := by
      simp [fetchCount, ensureTravelModes, initialRoutingState]
    rw [hstep, fetchCount_of_cached fs ⟨f⟩ hf]

/-- Witness for the amended C4: a single call whose fetch returns a
non-empty catalog. -/
theorem ensureTravelModes_fetch_at_most_once_witness :
    (∀ f ∈ [[TravelMode.mk "Driving Time" none]], f ≠ ([] : List TravelMode)) ∧
    fetchCount [[TravelMode.mk "Driving Time" none]] initialRoutingState ≤ 1 :=
  ⟨by decide, ensureTravelModes_fetch_at_most_once _ (by decide)⟩

/-- Claim C10: the longitude divisor `111320 * cos(latRadians)` is nonzero
for every center latitude of absolute value strictly below 90 degrees, so
the unguarded division defining the longitude radius is well-defined
there; in exact arithmetic the divisor vanishes at exactly ±90 degrees. -/
theorem metersPerDegreeLon_ne_zero :
    (∀ centerLat : ℝ, |centerLat| < 90 → metersPerDegreeLon centerLat ≠ 0) ∧
    metersPerDegreeLon 90 = 0 ∧ metersPerDegreeLon (-90) = 0 := by
  refine ⟨?_, ?_, ?_⟩
  · intro lat hlat
    obtain ⟨hl, hr⟩ := abs_lt.mp hlat
    have hpi : (0 : ℝ) < Real.pi := Real.pi_pos
    have h2 : lat * Real.pi < 90 * Real.pi := mul_lt_mul_of_pos_right hr hpi
    have h3 : (-90) * Real.pi < lat * Real.pi := mul_lt_mul_of_pos_right hl hpi
    have hcos : 0 < Real.cos (latRadians lat) := by
      apply Real.cos_pos_of_mem_Ioo
      unfold latRadians
      constructor
      · show -(Real.pi / 2) < lat * Real.pi / 180
        linarith
      · show lat * Real.pi / 180 < Real.pi / 2
        linarith
    exact ne_of_gt (mul_pos (by norm_num) hcos)
  · have h : latRadians 90 = Real.pi / 2 := by unfold latRadians; ring
    rw [metersPerDegreeLon, h, Real.cos_pi_div_two, mul_zero]
  · have h : latRadians (-90) = -(Real.pi / 2) := by unfold latRadians; ring
    rw [metersPerDegreeLon, h, Real.cos_neg, Real.cos_pi_div_two, mul_zero]

/-- Witness for C10: the divisor is nonzero at the equator. -/
theorem metersPerDegreeLon_ne_zero_witness :
    |(0 : ℝ)| < 90 ∧ metersPerDegreeLon 0 ≠ 0 :=
  ⟨by norm_num, metersPerDegreeLon_ne_zero.1 0 (by norm_num)⟩

/-- Claim C8: with the hard-coded vertex count 32 the ring of
`createCirclePolygon` has exactly 33 vertices, its first and last vertices
coincide, and each vertex offsets the center by the radius converted from
meters to degrees with `metersPerDegreeLatitude = 111320` and
`metersPerDegreeLongitude = 111320 * cos(center latitude in radians)`. -/
theorem createCirclePolygon_ring (centerLat centerLon radiusMeters : ℝ) :
    (createCirclePolygon centerLat centerLon radiusMeters).length =
      numPoints + 1 ∧
    numPoints + 1 = 33 ∧
    (createCirclePolygon centerLat centerLon radiusMeters).head? =
      (createCirclePolygon centerLat centerLon radiusMeters).getLast? ∧
    ∀ i : ℕ, i ≤ numPoints →
      (createCirclePolygon centerLat centerLon radiusMeters).get? i =
        some (centerLon +
                radiusMeters / (111320 * Real.cos (centerLat * Real.pi / 180)) *
                  Real.cos ((i : ℝ) * 2 * Real.pi / 32),
              centerLat + radiusMeters / 111320 *
                  Real.sin ((i : ℝ) * 2 * Real.pi / 32)) := by
  have hlen : (createCirclePolygon centerLat centerLon radiusMeters).length =
      numPoints + 1 := by
    simp [createCirclePolygon]
  have hget : ∀ i : ℕ, i ≤ numPoints →
      (createCirclePolygon centerLat centerLon radiusMeters).get? i =
        some (circleVertex centerLat centerLon radiusMeters i) := by
    intro i hi
    have hi' : i < numPoints + 1 := by omega
    rw [createCirclePolygon, List.get?_map, List.get?_range hi', Option.map_some']
  have hvertex : ∀ i : ℕ,
      circleVertex centerLat centerLon radiusMeters i =
        (centerLon +
           radiusMeters / (111320 * Real.cos (centerLat * Real.pi / 180)) *
             Real.cos ((i : ℝ) * 2 * Real.pi / 32),
         centerLat + radiusMeters / 111320 *
             Real.sin ((i : ℝ) * 2 * Real.pi / 32)) := by
    intro i
    simp only [circleVertex, radiusDegreesLon, radiusDegreesLat,
      metersPerDegreeLon, metersPerDegreeLat, latRadians, circleAngle, numPoints]
    norm_num
  refine ⟨hlen, rfl, ?_, fun i hi => (hget i hi).trans (by rw [hvertex])⟩
  rw [← List.get?_zero, List.getLast?_eq_get?, hlen]
  show _ = (createCirclePolygon centerLat centerLon radiusMeters).get? 32
  rw [hget 0 (Nat.zero_le _), hget 32 (by decide)]
  simp only [circleVertex]
  have ha0 : circleAngle 0 = 0 := by
    simp [circleAngle]
  have ha32 : circleAngle 32 = 2 * Real.pi := by
    simp only [circleAngle, numPoints]
    norm_num
    ring
  rw [ha0, ha32, Real.cos_zero, Real.sin_zero, Real.cos_two_pi, Real.sin_two_pi]

/-- Witness for C8: the vertex formula applied at the first vertex of a
100-meter circle centered at the origin. -/
theorem createCirclePolygon_ring_witness :
    (createCirclePolygon 0 0 100).get? 0 =
      some ((0 : ℝ) +
              (100 : ℝ) / (111320 * Real.cos ((0 : ℝ) * Real.pi / 180)) *
                Real.cos (((0 : ℕ) : ℝ) * 2 * Real.pi / 32),
            (0 : ℝ) + (100 : ℝ) / 111320 *
                Real.sin (((0 : ℕ) : ℝ) * 2 * Real.pi / 32)) :=
  (createCirclePolygon_ring 0 0 100).2.2.2 0 (by decide)

/-- Claim C1: for every incident selected for avoidance the barrier
builder emits a polygon barrier with `BarrierType = 0` whose ring is the
severity-sized circular buffer around the incident's location, and a
companion point barrier at the incident's location with
`Attr_Minutes = Attr_TravelTime = 999999`; each barrier set is attached to
the provider request when non-empty. -/
theorem calculateRoute_barriers (plan : RoutePlanRequest)
    (incidents : List MarkerData) (travelMode : Option TravelMode)
    (spatialReference : Option ℤ) :
    (∀ incident, incident ∈ incidents → incident.type ∈ plan.avoidTypes →
      polygonBarrierFor incident ∈ buildPolygonBarriers plan incidents ∧
      (polygonBarrierFor incident).BarrierType = 0 ∧
      (polygonBarrierFor incident).ring =
        createCirclePolygon incident.lat incident.lng
          ((getBarrierRadiusForSeverity incident.severity : ℤ) : ℝ) ∧
      pointBarrierFor incident ∈ buildPointBarriers plan incidents ∧
      (pointBarrierFor incident).latitude = incident.lat ∧
      (pointBarrierFor incident).longitude = incident.lng ∧
      (pointBarrierFor incident).Attr_Minutes = 999999 ∧
      (pointBarrierFor incident).Attr_TravelTime = 999999) ∧
    (buildPolygonBarriers plan incidents ≠ [] →
      (buildRouteParameters plan incidents travelMode
          spatialReference).polygonBarriers =
        some (buildPolygonBarriers plan incidents)) ∧
    (buildPointBarriers plan incidents ≠ [] →
      (buildRouteParameters plan incidents travelMode
          spatialReference).pointBarriers =
        some (buildPointBarriers plan incidents)) := by
  refine ⟨?_, ?_, ?_⟩
  · intro incident hmem htype
    have hlen : plan.avoidTypes.length ≠ 0 := by
      cases h : plan.avoidTypes with
      | nil => rw [h] at htype; cases htype
      | cons a l => simp [h]
    have hsel : incident ∈ incidentsToAvoid plan incidents := by
      unfold incidentsToAvoid
      simp only [hlen, if_neg, ite_false]
      rw [List.mem_filter]
      exact ⟨hmem, List.elem_iff.mpr htype⟩
    exact ⟨List.mem_map_of_mem polygonBarrierFor hsel, rfl, rfl,
      List.mem_map_of_mem pointBarrierFor hsel, rfl, rfl, rfl, rfl⟩
  · intro hne
    have hpos : 0 < (buildPolygonBarriers plan incidents).length :=
      List.length_pos.mpr hne
    simp [buildRouteParameters, hpos]
  · intro hne
    have hpos : 0 < (buildPointBarriers plan incidents).length :=
      List.length_pos.mpr hne
    simp [buildRouteParameters, hpos]

/-- Witness for C1: the severity-5 "accident" incident of the end-to-end
scenario yields both barriers, and both feature sets are attached. -/
theorem calculateRoute_barriers_witness :
    polygonBarrierFor scenarioIncident ∈
      buildPolygonBarriers scenarioPlan [scenarioIncident] ∧
    pointBarrierFor scenarioIncident ∈
      buildPointBarriers scenarioPlan [scenarioIncident] ∧
    (buildRouteParameters scenarioPlan [scenarioIncident]
        none none).polygonBarriers =
      some (buildPolygonBarriers scenarioPlan [scenarioIncident]) ∧
    (buildRouteParameters scenarioPlan [scenarioIncident]
        none none).pointBarriers =
      some (buildPointBarriers scenarioPlan [scenarioIncident]) := by
  have h := calculateRoute_barriers scenarioPlan [scenarioIncident] none none
  have htype : scenarioIncident.type ∈ scenarioPlan.avoidTypes := by
    simp [scenarioIncident, scenarioPlan]
  have hne : buildPolygonBarriers scenarioPlan [scenarioIncident] ≠ [] := by
    simp [buildPolygonBarriers, incidentsToAvoid, scenarioPlan,
      scenarioIncident, List.filter, List.contains]
  have hne' : buildPointBarriers scenarioPlan [scenarioIncident] ≠ [] := by
    simp [buildPointBarriers, incidentsToAvoid, scenarioPlan,
      scenarioIncident, List.filter, List.contains]
  exact ⟨(h.1 scenarioIncident (by simp) htype).1,
    (h.1 scenarioIncident (by simp) htype).2.2.2.1,
    h.2.1 hne, h.2.2 hne'⟩

/-- Source `pad2` of a value below 100 is a two-character digit block. -/
theorem pad2_length_digits :
    ∀ n : ℕ, n < 100 →
      (pad2 n).length = 2 ∧ ∀ c ∈ (pad2 n).toList, c.isDigit = true := by
  decide

/-- Source `toFixed2Nonneg` splits as integer part, dot, two-digit block. -/
theorem toFixed2Nonneg_split (q : ℚ) :
    ∃ a b : String, toFixed2Nonneg q = a ++ "." ++ b ∧ b.length = 2 ∧
      ∀ c ∈ b.toList, c.isDigit = true := by
  refine ⟨toString (⌊q * 100 + 1 / 2⌋ / 100),
    pad2 (⌊q * 100 + 1 / 2⌋ % 100).toNat, rfl, ?_, ?_⟩
  · have h1 := Int.emod_nonneg ⌊q * 100 + 1 / 2⌋ (by norm_num : (100 : ℤ) ≠ 0)
    have h2 := Int.emod_lt_of_pos ⌊q * 100 + 1 / 2⌋ (by norm_num : (0 : ℤ) < 100)
    exact (pad2_length_digits _ (by omega)).1
  · have h1 := Int.emod_nonneg ⌊q * 100 + 1 / 2⌋ (by norm_num : (100 : ℤ) ≠ 0)
    have h2 := Int.emod_lt_of_pos ⌊q * 100 + 1 / 2⌋ (by norm_num : (0 : ℤ) < 100)
    exact (pad2_length_digits _ (by omega)).2

/-- Source `toFixed2` always renders exactly two decimal places. -/
theorem toFixed2_twoDecimals (q : ℚ) : hasTwoDecimalPlaces (toFixed2 q) := by
  unfold toFixed2
  by_cases hq : q < 0
  · rw [if_pos hq]
    obtain ⟨a, b, hab, hlen, hdig⟩ := toFixed2Nonneg_split (-q)
    refine ⟨"-" ++ a, b, ?_, hlen, hdig⟩
    rw [hab]
    simp [String.append_assoc]
  · rw [if_neg hq]
    obtain ⟨a, b, hab, hlen, hdig⟩ := toFixed2Nonneg_split q
    exact ⟨a, b, hab, hlen, hdig⟩

/-- Source `jsRound` rounds to the nearest whole number (half a unit at most). -/
theorem jsRound_close (t : ℚ) : |(jsRound t : ℚ) - t| ≤ 1 / 2 := by
  unfold jsRound
  rw [abs_le]
  constructor
  · linarith [Int.lt_floor_add_one (t + 1 / 2)]
  · linarith [Int.floor_le (t + 1 / 2)]

/-- Source `toFixed2` at the miles-only example value. -/
theorem toFixed2_example : toFixed2 (10 * 1.60934 : ℚ) = "16.09" := by
  have hfl : ⌊(10 * (1.60934 : ℚ)) * 100 + 1 / 2⌋ = (1609 : ℤ) := by norm_num
  unfold toFixed2 toFixed2Nonneg
  rw [if_neg (by norm_num : ¬(10 * (1.60934 : ℚ) < 0))]
  show toString (⌊(10 * (1.60934 : ℚ)) * 100 + 1 / 2⌋ / 100) ++ "." ++
      pad2 (⌊(10 * (1.60934 : ℚ)) * 100 + 1 / 2⌋ % 100).toNat = "16.09"
  rw [hfl]
  decide

/-- Claim C2: tiered extraction of distance (kilometers, else miles times
1.60934, else unavailable) and duration (travel time, else generic time,
else unavailable); an available distance renders as a two-decimal value
with a "km" suffix (the miles-only example gives "16.09 km"), an available
duration rounds to the nearest whole minute with a "min" suffix, and
unavailable values render as the literal placeholder strings, never as
empty strings. -/
theorem routeResult_texts_spec (attrs : RouteAttrs) :
    (∀ k, attrs.Total_Kilometers = some k → distanceKmOf attrs = some k) ∧
    (attrs.Total_Kilometers = none → ∀ m, attrs.Total_Miles = some m →
      distanceKmOf attrs = some (m * 1.60934)) ∧
    (attrs.Total_Kilometers = none → attrs.Total_Miles = none →
      distanceKmOf attrs = none ∧
      distanceTextOf attrs = "distance unavailable") ∧
    (∀ t, attrs.Total_TravelTime = some t → timeMinutesOf attrs = some t) ∧
    (attrs.Total_TravelTime = none → ∀ t, attrs.Total_Time = some t →
      timeMinutesOf attrs = some t) ∧
    (attrs.Total_TravelTime = none → attrs.Total_Time = none →
      timeMinutesOf attrs = none ∧ timeTextOf attrs = "time unavailable") ∧
    (∀ d, distanceKmOf attrs = some d →
      distanceTextOf attrs = toFixed2 d ++ " km" ∧
      hasTwoDecimalPlaces (toFixed2 d)) ∧
    (∀ t, timeMinutesOf attrs = some t →
      timeTextOf attrs = toString (jsRound t) ++ " min" ∧
      |(jsRound t : ℚ) - t| ≤ 1 / 2) ∧
    distanceTextOf milesOnlyAttrs = "16.09 km" ∧
    0 < (distanceTextOf attrs).length ∧ 0 < (timeTextOf attrs).length := by
  refine ⟨?_, ?_, ?_, ?_, ?_, ?_, ?_, ?_, ?_, ?_, ?_⟩
  · intro k h
    simp [distanceKmOf, h]
  · intro h m hm
    simp [distanceKmOf, h, hm]
  · intro h hm
    exact ⟨by simp [distanceKmOf, h, hm],
      by simp [distanceTextOf, distanceKmOf, h, hm]⟩
  · intro t h
    simp [timeMinutesOf, h]
  · intro h t ht
    simp [timeMinutesOf, h, ht]
  · intro h ht
    exact ⟨by simp [timeMinutesOf, h, ht],
      by simp [timeTextOf, timeMinutesOf, h, ht]⟩
  · intro d hd
    exact ⟨by simp [distanceTextOf, hd], toFixed2_twoDecimals d⟩
  · intro t ht
    exact ⟨by simp [timeTextOf, ht], jsRound_close t⟩
  · show toFixed2 (10 * 1.60934 : ℚ) ++ " km" = "16.09 km"
    rw [toFixed2_example]
    decide
  · rcases h : distanceKmOf attrs with _ | d
    · simp only [distanceTextOf, h]
      decide
    · simp [distanceTextOf, h, String.length_append]
      exact Or.inr (by decide)
  · rcases h : timeMinutesOf attrs with _ | t
    · simp only [timeTextOf, h]
      decide
    · simp [timeTextOf, h, String.length_append]
      exact Or.inr (by decide)

/-- Witness for C2: the extraction and formatting parts applied at concrete
attribute records (miles-only distance, fractional travel time, and fully
absent attributes). -/
theorem routeResult_texts_spec_witness :
    distanceKmOf milesOnlyAttrs = some (10 * 1.60934) ∧
    distanceTextOf absentAttrs = "distance unavailable" ∧
    timeMinutesOf timeOnlyAttrs = some (5 / 2) ∧
    timeTextOf absentAttrs = "time unavailable" ∧
    distanceTextOf kmOnlyAttrs = toFixed2 3 ++ " km" ∧
    timeTextOf travelTimeOnlyAttrs = toString (jsRound (5 / 2)) ++ " min" :=
  ⟨(routeResult_texts_spec milesOnlyAttrs).2.1 rfl 10 rfl,
   ((routeResult_texts_spec absentAttrs).2.2.1 rfl rfl).2,
   (routeResult_texts_spec timeOnlyAttrs).2.2.2.2.1 rfl (5 / 2) rfl,
   ((routeResult_texts_spec absentAttrs).2.2.2.2.2.1 rfl rfl).2,
   ((routeResult_texts_spec kmOnlyAttrs).2.2.2.2.2.2.1 3 rfl).1,
   ((routeResult_texts_spec travelTimeOnlyAttrs).2.2.2.2.2.2.2.1 (5 / 2) rfl).1⟩

end TravelSafe
